import Mathlib

/-!
Shallow embedding of the transfer-learning toolkit sources:
  - `tlt/models/image_classification/image_classification_model.py` (`get_inc_config`)
  - `ai_downloader/datasets.py` (`DataDownloader`)
  - `tlk/datasets/pytorch_dataset.py` (`PyTorchDataset`)
Python scalar values are modelled by `PyVal` (floats as rationals), exceptions by
`PyExc`, and each method becomes a Lean function returning `Except`/`Option PyExc`.
-/

set_option linter.all false

/-- Python exception classes that the embedded code can raise. -/
inductive PyExc where
  | valueError
  | typeError
  | fileNotFoundError
  | indexError
  | notImplementedError
  deriving DecidableEq

/-- A Python scalar value: int, float (modelled as an exact rational), str, bool,
or None.  This is the argument universe the validation code branches over. -/
inductive PyVal where
  | int (n : Int)
  | float (q : Rat)
  | str (s : String)
  | bool (b : Bool)
  | pyNone
  deriving DecidableEq

namespace PyVal

/-- Python truthiness of a scalar: nonzero numbers, nonempty strings and `True`
are truthy; `None` is falsy. -/
def truthy : PyVal → Bool
  | int n => n ≠ 0
  | float q => q ≠ 0
  | str s => s ≠ ""
  | bool b => b
  | pyNone => false

/-- Embeds `isinstance(v, float)`: in Python only float objects qualify. -/
def isFloat : PyVal → Bool
  | float _ => true
  | _ => false

/-- Embeds `isinstance(v, int)`: in Python `bool` is a subclass of `int`. -/
def isInt : PyVal → Bool
  | int _ => true
  | bool _ => true
  | _ => false

/-- Numeric value used by Python order comparisons; `none` for values whose
comparison with a number raises `TypeError` (strings, `None`). -/
def asNum : PyVal → Option Rat
  | int n => some (n : Rat)
  | float q => some q
  | bool b => some (if b then 1 else 0)
  | _ => none

/-- Embeds Python `v == s` for a string literal `s`: equality across types is
`False`, never an error. -/
def eqStr : PyVal → String → Bool
  | str t, s => t = s
  | _, _ => false

end PyVal

/-- The fields of the `neural_compressor` `PostTrainingQuantConfig` that
`get_inc_config` populates: approach, device, the relative accuracy criterion
(`tolerable_loss`), and the tuning criterion's timeout and max_trials. -/
structure PostTrainingQuantConfig where
  approach : String
  device : String
  tolerable_loss : PyVal
  timeout : PyVal
  max_trials : PyVal
  deriving DecidableEq

/-- Embeds the first validation in `ImageClassificationModel.get_inc_config`:
`if accuracy_criterion_relative and not isinstance(accuracy_criterion_relative, float)
or not (0.0 <= accuracy_criterion_relative <= 1.0): raise ValueError`.
Python precedence groups this as `(a and not isinstance(a, float)) or not (0.0 <= a <= 1.0)`,
and the comparison chain raises `TypeError` on non-numeric falsy values. -/
def check_accuracy_criterion (a : PyVal) : Option PyExc :=
  if a.truthy && !a.isFloat then some .valueError
  else
    match a.asNum with
    | some q => if !(decide (0 ≤ q) && decide (q ≤ 1)) then some .valueError else none
    | none => some .typeError

/-- Embeds `if exit_policy_timeout and not isinstance(exit_policy_timeout, int)
or exit_policy_timeout < 0: raise ValueError` from `get_inc_config`. -/
def check_exit_policy_timeout (t : PyVal) : Option PyExc :=
  if t.truthy && !t.isInt then some .valueError
  else
    match t.asNum with
    | some q => if decide (q < 0) then some .valueError else none
    | none => some .typeError

/-- Embeds `if exit_policy_max_trials and not isinstance(exit_policy_max_trials, int)
or exit_policy_max_trials < 1: raise ValueError` from `get_inc_config`. -/
def check_exit_policy_max_trials (m : PyVal) : Option PyExc :=
  if m.truthy && !m.isInt then some .valueError
  else
    match m.asNum with
    | some q => if decide (q < 1) then some .valueError else none
    | none => some .typeError

/-- Embeds `ImageClassificationModel.get_inc_config`: runs the three validations
in order and, when none raises, builds the static-approach cpu config carrying
the given accuracy criterion, timeout and max_trials. -/
def get_inc_config (accuracy_criterion_relative exit_policy_timeout exit_policy_max_trials : PyVal) :
    Except PyExc PostTrainingQuantConfig :=
  match check_accuracy_criterion accuracy_criterion_relative with
  | some e => .error e
  | none =>
    match check_exit_policy_timeout exit_policy_timeout with
    | some e => .error e
    | none =>
      match check_exit_policy_max_trials exit_policy_max_trials with
      | some e => .error e
      | none =>
        .ok ⟨"static", "cpu", accuracy_criterion_relative, exit_policy_timeout,
          exit_policy_max_trials⟩

/-- Spec-side predicate: the accuracy-criterion check raises `ValueError`
(the argument is truthy and not a float, or compares numerically outside `[0, 1]`). -/
def acrRaisesVE (a : PyVal) : Prop :=
  (a.truthy = true ∧ a.isFloat = false) ∨ ∃ q, a.asNum = some q ∧ ¬(0 ≤ q ∧ q ≤ 1)

/-- Spec-side predicate: the accuracy-criterion check passes
(the argument is a float in `[0, 1]`, or a falsy numeric value in `[0, 1]`). -/
def acrPasses (a : PyVal) : Prop :=
  ¬(a.truthy = true ∧ a.isFloat = false) ∧ ∃ q, a.asNum = some q ∧ 0 ≤ q ∧ q ≤ 1

/-- Spec-side predicate: the timeout check raises `ValueError`
(the argument is truthy and not an int, or compares numerically below 0). -/
def timeoutRaisesVE (t : PyVal) : Prop :=
  (t.truthy = true ∧ t.isInt = false) ∨ ∃ q, t.asNum = some q ∧ q < 0

/-- Spec-side predicate: the timeout check passes. -/
def timeoutPasses (t : PyVal) : Prop :=
  ¬(t.truthy = true ∧ t.isInt = false) ∧ ∃ q, t.asNum = some q ∧ 0 ≤ q

/-- Spec-side predicate: the max-trials check raises `ValueError`
(the argument is truthy and not an int, or compares numerically below 1). -/
def maxTrialsRaisesVE (m : PyVal) : Prop :=
  (m.truthy = true ∧ m.isInt = false) ∨ ∃ q, m.asNum = some q ∧ q < 1

/-- Spec-side predicate: the max-trials check passes. -/
def maxTrialsPasses (m : PyVal) : Prop :=
  ¬(m.truthy = true ∧ m.isInt = false) ∧ ∃ q, m.asNum = some q ∧ 1 ≤ q

theorem check_accuracy_criterion_ve_iff (a : PyVal) :
    check_accuracy_criterion a = some PyExc.valueError ↔ acrRaisesVE a := by
  cases a <;>
    simp only [check_accuracy_criterion, acrRaisesVE, PyVal.truthy, PyVal.isFloat,
      PyVal.asNum] <;>
    split_ifs <;>
    simp_all <;>
    (try tauto) <;>
    (intro h0; rcases ‹_ ∨ _› with h1 | h1 <;> linarith)

theorem check_accuracy_criterion_none_iff (a : PyVal) :
    check_accuracy_criterion a = none ↔ acrPasses a := by
  cases a <;>
    simp only [check_accuracy_criterion, acrPasses, PyVal.truthy, PyVal.isFloat,
      PyVal.asNum] <;>
    split_ifs <;>
    simp_all <;>
    (try tauto) <;>
    (intro h0; rcases ‹_ ∨ _› with h1 | h1 <;> linarith)

theorem check_accuracy_criterion_cases (a : PyVal) :
    check_accuracy_criterion a = none ∨ check_accuracy_criterion a = some PyExc.valueError ∨
      check_accuracy_criterion a = some PyExc.typeError := by
  unfold check_accuracy_criterion
  split_ifs with h
  · simp
  · rcases a.asNum with _ | q
    · simp
    · by_cases hq : (!(decide (0 ≤ q) && decide (q ≤ 1))) = true <;> simp [hq]

theorem check_exit_policy_timeout_ve_iff (t : PyVal) :
    check_exit_policy_timeout t = some PyExc.valueError ↔ timeoutRaisesVE t := by
  cases t <;>
    simp only [check_exit_policy_timeout, timeoutRaisesVE, PyVal.truthy, PyVal.isInt,
      PyVal.asNum] <;>
    split_ifs <;>
    simp_all <;>
    (try tauto) <;>
    (intro h0; rcases ‹_ ∨ _› with h1 | h1 <;> linarith)

theorem check_exit_policy_timeout_none_iff (t : PyVal) :
    check_exit_policy_timeout t = none ↔ timeoutPasses t := by
  cases t <;>
    simp only [check_exit_policy_timeout, timeoutPasses, PyVal.truthy, PyVal.isInt,
      PyVal.asNum] <;>
    split_ifs <;>
    simp_all <;>
    (try tauto) <;>
    (intro h0; rcases ‹_ ∨ _› with h1 | h1 <;> linarith)

theorem check_exit_policy_max_trials_ve_iff (m : PyVal) :
    check_exit_policy_max_trials m = some PyExc.valueError ↔ maxTrialsRaisesVE m := by
  cases m <;>
    simp only [check_exit_policy_max_trials, maxTrialsRaisesVE, PyVal.truthy, PyVal.isInt,
      PyVal.asNum] <;>
    split_ifs <;>
    simp_all <;>
    (try tauto) <;>
    (intro h0; rcases ‹_ ∨ _› with h1 | h1 <;> linarith)

theorem check_exit_policy_max_trials_none_iff (m : PyVal) :
    check_exit_policy_max_trials m = none ↔ maxTrialsPasses m := by
  cases m <;>
    simp only [check_exit_policy_max_trials, maxTrialsPasses, PyVal.truthy, PyVal.isInt,
      PyVal.asNum] <;>
    split_ifs <;>
    simp_all <;>
    (try tauto) <;>
    (intro h0; rcases ‹_ ∨ _› with h1 | h1 <;> linarith)

theorem check_exit_policy_timeout_cases (t : PyVal) :
    check_exit_policy_timeout t = none ∨ check_exit_policy_timeout t = some PyExc.valueError ∨
      check_exit_policy_timeout t = some PyExc.typeError := by
  unfold check_exit_policy_timeout
  split_ifs with h
  · simp
  · rcases t.asNum with _ | q
    · simp
    · by_cases hq : (decide (q < 0)) = true <;> simp [hq]

theorem check_exit_policy_max_trials_cases (m : PyVal) :
    check_exit_policy_max_trials m = none ∨
      check_exit_policy_max_trials m = some PyExc.valueError ∨
      check_exit_policy_max_trials m = some PyExc.typeError := by
  unfold check_exit_policy_max_trials
  split_ifs with h
  · simp
  · rcases m.asNum with _ | q
    · simp
    · by_cases hq : (decide (q < 1)) = true <;> simp [hq]

/-- C1: the claim, as stated, is false on the code.  The claim says `get_inc_config`
raises `ValueError` whenever `accuracy_criterion_relative` is not a float between
0.0 and 1.0, but the Python guard `a and not isinstance(a, float) or not (0.0 <= a <= 1.0)`
lets the integer `0` through (it is falsy and within range), so the call with
`accuracy_criterion_relative = 0`, `exit_policy_timeout = 0`,
`exit_policy_max_trials = 50` succeeds and returns the config. -/
theorem get_inc_config_claim_counterexample :
    PyVal.isFloat (PyVal.int 0) = false ∧
      get_inc_config (PyVal.int 0) (PyVal.int 0) (PyVal.int 50) =
        Except.ok ⟨"static", "cpu", PyVal.int 0, PyVal.int 0, PyVal.int 50⟩ := by
  constructor
  · rfl
  · rfl

/-- C1 (amended): `get_inc_config` raises `ValueError` iff the accuracy criterion
is truthy and not a float or compares numerically outside `[0, 1]`, or (the
accuracy check passing) the timeout is truthy and not an int or negative, or
(both passing) max_trials is truthy and not an int or below 1; falsy non-numeric
arguments instead raise `TypeError` at the chained comparison.  When nothing is
raised it returns the `PostTrainingQuantConfig` with approach "static", device
"cpu", the given accuracy criterion as `tolerable_loss`, the given timeout and
the given max_trials. -/
theorem get_inc_config_characterization (a t m : PyVal) :
    (get_inc_config a t m = Except.error PyExc.valueError ↔
      (acrRaisesVE a ∨ (acrPasses a ∧ timeoutRaisesVE t) ∨
        (acrPasses a ∧ timeoutPasses t ∧ maxTrialsRaisesVE m))) ∧
    (∀ cfg, get_inc_config a t m = Except.ok cfg ↔
      (acrPasses a ∧ timeoutPasses t ∧ maxTrialsPasses m ∧
        cfg = ⟨"static", "cpu", a, t, m⟩)) := by
  have hAve := check_accuracy_criterion_ve_iff a
  have hAok := check_accuracy_criterion_none_iff a
  have hTve := check_exit_policy_timeout_ve_iff t
  have hTok := check_exit_policy_timeout_none_iff t
  have hMve := check_exit_policy_max_trials_ve_iff m
  have hMok := check_exit_policy_max_trials_none_iff m
  unfold get_inc_config
  rcases check_accuracy_criterion_cases a with hA | hA | hA <;>
    rcases check_exit_policy_timeout_cases t with hT | hT | hT <;>
      rcases check_exit_policy_max_trials_cases m with hM | hM | hM <;>
        simp_all <;> tauto

/-- C1 witness: the amended characterization evaluated at the test inputs
`accuracy_criterion_relative = 0.01`, `exit_policy_timeout = 0`,
`exit_policy_max_trials = 50` yields the successful config. -/
theorem get_inc_config_characterization_witness :
    get_inc_config (PyVal.float (1/100)) (PyVal.int 0) (PyVal.int 50) =
      Except.ok ⟨"static", "cpu", PyVal.float (1/100), PyVal.int 0, PyVal.int 50⟩ := by
  have h := (get_inc_config_characterization (PyVal.float (1/100)) (PyVal.int 0)
    (PyVal.int 50)).2 ⟨"static", "cpu", PyVal.float (1/100), PyVal.int 0, PyVal.int 50⟩
  refine h.mpr ?_
  refine ⟨⟨by simp [PyVal.isFloat], (1:Rat)/100, by norm_num [PyVal.asNum]⟩,
    ⟨by simp [PyVal.isInt], 0, by norm_num [PyVal.asNum]⟩,
    ⟨by simp [PyVal.isInt], 50, by norm_num [PyVal.asNum]⟩, rfl⟩

/-- The dataset catalogs accepted by the `DataDownloader` constructor docstring:
'tensorflow_datasets', 'torchvision' and 'hugging_face'. -/
inductive Catalog where
  | tensorflow_datasets
  | torchvision
  | hugging_face
  deriving DecidableEq

/-- The `ai_downloader` dataset types that `DataDownloader` dispatches on. -/
inductive DatasetType where
  | TENSORFLOW_DATASETS
  | TORCHVISION
  | HUGGING_FACE
  | GENERIC
  deriving DecidableEq

/-- Modelled from the spec: `DatasetType.from_str` lives in `ai_downloader/types.py`,
which is not among the sources.  The `DataDownloader` constructor docstring says the
catalog options are 'tensorflow_datasets', 'torchvision', 'hugging_face', and that a
`None` catalog results in a GENERIC type dataset. -/
def DatasetType.from_str : Option Catalog → DatasetType
  | some .tensorflow_datasets => .TENSORFLOW_DATASETS
  | some .torchvision => .TORCHVISION
  | some .hugging_face => .HUGGING_FACE
  | none => .GENERIC

/-- A minimal file-system model: the set of directories that exist.  Only
`os.path.isdir` and `os.makedirs` are needed by the constructor. -/
structure FS where
  dirs : List String
  deriving DecidableEq

/-- Embeds `os.path.isdir`. -/
def FS.isdir (fs : FS) (d : String) : Bool := fs.dirs.contains d

/-- Embeds `os.makedirs`. -/
def FS.makedirs (fs : FS) (d : String) : FS := ⟨d :: fs.dirs⟩

/-- The instance attributes stored by `DataDownloader.__init__`. -/
structure DataDownloader where
  dataset_name : String
  dataset_dir : String
  type : DatasetType
  url : Option String
  args : List (String × String)
  deriving DecidableEq

/-- Embeds `DataDownloader.__init__`: raises `ValueError` when both or neither of
`catalog` and `url` are given; otherwise creates the dataset directory if missing
and stores name, directory, the dataset type derived from the catalog, url and
the extra keyword arguments. -/
def DataDownloader.init (dataset_name dataset_dir : String) (catalog : Option Catalog)
    (url : Option String) (kwargs : List (String × String)) (fs : FS) :
    Except PyExc (FS × DataDownloader) :=
  if catalog.isNone && url.isNone then .error .valueError
  else if catalog.isSome && url.isSome then .error .valueError
  else
    let fs1 := if fs.isdir dataset_dir then fs else fs.makedirs dataset_dir
    .ok (fs1, ⟨dataset_name, dataset_dir, DatasetType.from_str catalog, url, kwargs⟩)

/-- C2: `DataDownloader.__init__` raises `ValueError` iff both `catalog` and `url`
are None or both are non-None; when exactly one is given it succeeds, creates the
dataset directory when it does not exist, and stores the dataset name, directory,
the dataset type derived from the catalog, the url and the keyword arguments
unchanged.  (`DatasetType.from_str` is modelled from the constructor docstring.) -/
theorem DataDownloader_init_spec (dataset_name dataset_dir : String)
    (catalog : Option Catalog) (url : Option String) (kwargs : List (String × String))
    (fs : FS) :
    (DataDownloader.init dataset_name dataset_dir catalog url kwargs fs =
        Except.error PyExc.valueError ↔
      ((catalog = none ∧ url = none) ∨ (catalog ≠ none ∧ url ≠ none))) ∧
    (∀ fs1 d, DataDownloader.init dataset_name dataset_dir catalog url kwargs fs =
        Except.ok (fs1, d) ↔
      (((catalog = none ∧ url ≠ none) ∨ (catalog ≠ none ∧ url = none)) ∧
        fs1 = (if fs.isdir dataset_dir then fs else fs.makedirs dataset_dir) ∧
        d = ⟨dataset_name, dataset_dir, DatasetType.from_str catalog, url, kwargs⟩)) := by
  unfold DataDownloader.init
  rcases catalog with _ | c <;> rcases url with _ | u <;>
    simp [Option.isNone, Option.isSome] <;> tauto

/-- C2 witness: constructing with only the torchvision catalog on an empty file
system succeeds and creates the dataset directory. -/
theorem DataDownloader_init_spec_witness :
    DataDownloader.init "CIFAR10" "/tmp/data" (some Catalog.torchvision) none [] ⟨[]⟩ =
      Except.ok (⟨["/tmp/data"]⟩,
        ⟨"CIFAR10", "/tmp/data", DatasetType.TORCHVISION, none, []⟩) := by
  have h := (DataDownloader_init_spec "CIFAR10" "/tmp/data" (some Catalog.torchvision)
    none [] ⟨[]⟩).2 ⟨["/tmp/data"]⟩ ⟨"CIFAR10", "/tmp/data", DatasetType.TORCHVISION, none, []⟩
  exact h.mpr ⟨Or.inr ⟨by simp, rfl⟩, by decide, rfl⟩

/-- Splits a character list at every occurrence of `c`, keeping empty pieces,
exactly like Python's `str.split` with an explicit separator. -/
def splitOnChar (c : Char) : List Char → List (List Char)
  | [] => [[]]
  | x :: xs =>
    let r := splitOnChar c xs
    if x = c then [] :: r
    else
      match r with
      | [] => [[x]]
      | y :: ys => (x :: y) :: ys

/-- Embeds Python `s.split('/')`. -/
def pySplitSlash (s : String) : List String :=
  (splitOnChar '/' s.toList).map fun l => String.mk l

/-- Embeds `os.path.basename` for URL-like paths: the part after the last slash. -/
def basename (p : String) : String := (pySplitSlash p).getLastD ""

/-- Embeds `os.path.join dir name` for a relative `name`. -/
def pathJoin (dir name : String) : String := dir ++ "/" ++ name

/-- Embeds `{i.split('/')[0] for i in names}` turned into a list: the deduplicated
top-level members of an archive listing (Python's set iteration order is modelled
by first-occurrence order). -/
def topLevel (names : List String) : List String :=
  (names.map fun i => ((pySplitSlash i).headD "")).dedup

/-- The split argument of `DataDownloader.download`: a string or a list of strings. -/
inductive SplitArg where
  | str (s : String)
  | list (l : List String)
  deriving DecidableEq

/-- Embeds `split == 'train'`: `True` only for the string 'train'. -/
def SplitArg.eqTrain : SplitArg → Bool
  | .str s => s = "train"
  | .list _ => false

/-- Embeds the tfds wrapping `if isinstance(split, str): split = [split]`. -/
def SplitArg.asList : SplitArg → List String
  | .str s => [s]
  | .list l => l

/-- Embeds `self._args['subset'] if 'subset' in self._args else None`. -/
def lookupArg (key : String) (args : List (String × String)) : Option String :=
  (args.find? fun p => p.1 = key).map Prod.snd

/-- A vendor-SDK invocation that `DataDownloader.download` can make. -/
inductive VendorCall where
  | tfds_load (name data_dir : String) (split : List String) (kwargs : List (String × String))
  | torchvision_ctor (name root : String) (download : Bool) (split : Option SplitArg)
      (train : Option Bool)
  | hf_load_dataset (name : String) (subset : Option String) (split : SplitArg)
      (cache_dir : String)
  | url_download (url dest : String)
  deriving DecidableEq

/-- An observable side effect of `DataDownloader.download`. -/
inductive Effect where
  | vendor (c : VendorCall)
  | extract_tar (archive dest : String)
  | extract_zip (archive dest : String)
  deriving DecidableEq

/-- The vendor-SDK calls among a list of effects. -/
def vendorCalls : List Effect → List VendorCall
  | [] => []
  | .vendor c :: es => c :: vendorCalls es
  | _ :: es => vendorCalls es

/-- Environment facts that `download` observes but does not control: whether the
torchvision dataset class accepts a `split` keyword (the `TypeError` fallback),
whether the downloaded file exists, whether `tarfile`/`zipfile` recognise it, and
the archive's member names. -/
structure DownloadEnv where
  accepts_split : Bool
  file_exists : Bool
  is_tarfile : Bool
  is_zipfile : Bool
  archive_names : List String
  deriving DecidableEq

/-- The value returned by `DataDownloader.download`: a vendor dataset object, a
single path string, or a list of paths. -/
inductive DownloadResult where
  | dataset (c : VendorCall)
  | path (p : String)
  | paths (ps : List String)
  deriving DecidableEq

/-- Embeds the tail of the GENERIC branch: `contents` are the top-level extracted
members; more than one yields absolute paths, exactly one yields a single joined
path, and `contents[0]` on an empty list raises `IndexError`. -/
def contentsResult (dataset_dir : String) (contents : List String) :
    Except PyExc DownloadResult :=
  if contents.length > 1 then .ok (.paths (contents.map (pathJoin dataset_dir)))
  else
    match contents with
    | [] => .error .indexError
    | c :: _ => .ok (.path (pathJoin dataset_dir c))

/-- Embeds `DataDownloader.download`: dispatches on the dataset type chosen at
construction.  tfds and hugging-face loads and the torchvision constructor are
recorded as vendor calls; the GENERIC branch downloads the url, checks the file,
extracts tar/zip archives into the dataset directory, and reshapes the result.
Calling the GENERIC branch with no stored url would pass `None` to
`urllib.request.urlopen`, modelled as a raised error. -/
def DataDownloader.download (d : DataDownloader) (env : DownloadEnv) (split : SplitArg) :
    Except PyExc DownloadResult × List Effect :=
  match d.type with
  | .TENSORFLOW_DATASETS =>
    let c := VendorCall.tfds_load d.dataset_name d.dataset_dir split.asList d.args
    (.ok (.dataset c), [.vendor c])
  | .TORCHVISION =>
    if env.accepts_split then
      let c := VendorCall.torchvision_ctor d.dataset_name d.dataset_dir true (some split) none
      (.ok (.dataset c), [.vendor c])
    else
      let c := VendorCall.torchvision_ctor d.dataset_name d.dataset_dir true none
        (some split.eqTrain)
      (.ok (.dataset c), [.vendor c])
  | .HUGGING_FACE =>
    let c := VendorCall.hf_load_dataset d.dataset_name (lookupArg "subset" d.args) split
      d.dataset_dir
    (.ok (.dataset c), [.vendor c])
  | .GENERIC =>
    match d.url with
    | none => (.error .typeError, [])
    | some u =>
      let file_path := pathJoin d.dataset_dir (basename u)
      let dl := Effect.vendor (.url_download u d.dataset_dir)
      if env.file_exists then
        if env.is_tarfile then
          (contentsResult d.dataset_dir (topLevel env.archive_names),
            [dl, .extract_tar file_path d.dataset_dir])
        else if env.is_zipfile then
          (contentsResult d.dataset_dir (topLevel env.archive_names),
            [dl, .extract_zip file_path d.dataset_dir])
        else (.ok (.path file_path), [dl])
      else (.error .fileNotFoundError, [dl])

/-- C3: for a `DataDownloader` initialized with a generic web url, `download`
downloads the file into the dataset directory; a tar or zip archive is extracted
into the dataset directory and the result is the list of joined paths when there
is more than one top-level member and the single joined path when there is
exactly one; a non-archive file yields its own path; a missing downloaded file
raises `FileNotFoundError`. -/
theorem DataDownloader_download_generic_spec (d : DataDownloader) (env : DownloadEnv)
    (split : SplitArg) (u : String) (htype : d.type = DatasetType.GENERIC)
    (hurl : d.url = some u) :
    (env.file_exists = false →
      (d.download env split).1 = Except.error PyExc.fileNotFoundError) ∧
    (env.file_exists = true → env.is_tarfile = true →
      (Effect.extract_tar (pathJoin d.dataset_dir (basename u)) d.dataset_dir ∈
          (d.download env split).2 ∧
        ((topLevel env.archive_names).length > 1 →
          (d.download env split).1 =
            Except.ok (.paths ((topLevel env.archive_names).map (pathJoin d.dataset_dir)))) ∧
        ((topLevel env.archive_names).length = 1 →
          (d.download env split).1 =
            Except.ok (.path (pathJoin d.dataset_dir
              ((topLevel env.archive_names).headD "")))))) ∧
    (env.file_exists = true → env.is_tarfile = false → env.is_zipfile = true →
      (Effect.extract_zip (pathJoin d.dataset_dir (basename u)) d.dataset_dir ∈
          (d.download env split).2 ∧
        ((topLevel env.archive_names).length > 1 →
          (d.download env split).1 =
            Except.ok (.paths ((topLevel env.archive_names).map (pathJoin d.dataset_dir)))) ∧
        ((topLevel env.archive_names).length = 1 →
          (d.download env split).1 =
            Except.ok (.path (pathJoin d.dataset_dir
              ((topLevel env.archive_names).headD "")))))) ∧
    (env.file_exists = true → env.is_tarfile = false → env.is_zipfile = false →
      (d.download env split).1 =
        Except.ok (.path (pathJoin d.dataset_dir (basename u)))) := by
  have hres : ∀ dir : String, ∀ contents : List String,
      (contents.length > 1 →
        contentsResult dir contents = Except.ok (.paths (contents.map (pathJoin dir)))) ∧
      (contents.length = 1 →
        contentsResult dir contents = Except.ok (.path (pathJoin dir (contents.headD "")))) := by
    intro dir contents
    constructor
    · intro hlen
      unfold contentsResult
      simp [hlen]
    · intro hlen
      rcases contents with _ | ⟨c, rest⟩
      · simp at hlen
      · rcases rest with _ | ⟨c2, rest2⟩
        · simp [contentsResult]
        · simp at hlen
  unfold DataDownloader.download
  rw [htype, hurl]
  rcases env with ⟨acc, fe, tar, zip, names⟩
  rcases fe <;> rcases tar <;> rcases zip <;>
    simp_all <;>
    exact ⟨(hres d.dataset_dir (topLevel names)).1, (hres d.dataset_dir (topLevel names)).2⟩

/-- C3 witness: downloading a tar archive with two files both under one top-level
directory extracts it and yields a single path to that directory. -/
theorem DataDownloader_download_generic_spec_witness :
    (DataDownloader.download
      ⟨"flowers", "/tmp/data", DatasetType.GENERIC, some "http://host/flowers.tgz", []⟩
      ⟨true, true, true, false, ["flowers/a.jpg", "flowers/b.jpg"]⟩
      (SplitArg.str "train")).1 = Except.ok (.path "/tmp/data/flowers") := by
  have h := DataDownloader_download_generic_spec
    ⟨"flowers", "/tmp/data", DatasetType.GENERIC, some "http://host/flowers.tgz", []⟩
    ⟨true, true, true, false, ["flowers/a.jpg", "flowers/b.jpg"]⟩
    (SplitArg.str "train") "http://host/flowers.tgz" rfl rfl
  have h2 := (h.2.1 rfl rfl).2.2 (by decide)
  rw [h2]
  rfl

/-- C4: `download(split)` dispatches to exactly one vendor SDK according to the
dataset type chosen at construction: `tensorflow_datasets.load` with name,
directory and the split wrapped into a singleton list when it is a string; the
torchvision dataset class named by the dataset name with `download=True`,
falling back to `train=(split == 'train')` when the class does not accept a
split argument; `datasets.load_dataset` with name, the subset keyword when one
was provided, the given split and the directory as cache dir; and a web
download from the stored url for the generic type. -/
theorem DataDownloader_download_dispatch (d : DataDownloader) (env : DownloadEnv)
    (split : SplitArg) :
    (d.type = DatasetType.TENSORFLOW_DATASETS →
      vendorCalls (d.download env split).2 =
        [VendorCall.tfds_load d.dataset_name d.dataset_dir split.asList d.args]) ∧
    (d.type = DatasetType.TORCHVISION →
      vendorCalls (d.download env split).2 =
        [if env.accepts_split then
          VendorCall.torchvision_ctor d.dataset_name d.dataset_dir true (some split) none
        else
          VendorCall.torchvision_ctor d.dataset_name d.dataset_dir true none
            (some split.eqTrain)]) ∧
    (d.type = DatasetType.HUGGING_FACE →
      vendorCalls (d.download env split).2 =
        [VendorCall.hf_load_dataset d.dataset_name (lookupArg "subset" d.args) split
          d.dataset_dir]) ∧
    (∀ u, d.type = DatasetType.GENERIC → d.url = some u →
      vendorCalls (d.download env split).2 =
        [VendorCall.url_download u d.dataset_dir]) := by
  refine ⟨fun h => ?_, fun h => ?_, fun h => ?_, fun u h hu => ?_⟩ <;>
    unfold DataDownloader.download <;> rw [h]
  · rfl
  · by_cases hs : env.accepts_split <;> simp [hs, vendorCalls]
  · rfl
  · rw [hu]
    by_cases hf : env.file_exists <;>
      by_cases ht : env.is_tarfile <;>
        by_cases hz : env.is_zipfile <;>
          simp [hf, ht, hz, vendorCalls]

/-- C4 witness: a hugging-face downloader with a subset keyword issues exactly
the corresponding `load_dataset` call. -/
theorem DataDownloader_download_dispatch_witness :
    vendorCalls ((DataDownloader.download
        ⟨"glue", "/tmp/data", DatasetType.HUGGING_FACE, none, [("subset", "sst2")]⟩
        ⟨true, false, false, false, []⟩ (SplitArg.str "train")).2) =
      [VendorCall.hf_load_dataset "glue" (some "sst2") (SplitArg.str "train") "/tmp/data"] := by
  have h := (DataDownloader_download_dispatch
    ⟨"glue", "/tmp/data", DatasetType.HUGGING_FACE, none, [("subset", "sst2")]⟩
    ⟨true, false, false, false, []⟩ (SplitArg.str "train")).2.2.1 rfl
  rw [h]
  rfl

/-- Python `int()` truncation toward zero of an exact rational. -/
def pyIntTrunc (q : Rat) : Int := if q < 0 then -⌊-q⌋ else ⌊q⌋

/-- Clamps one bound of a Python slice `l[start:stop]` for a list of length `n`:
negative indices count from the end, and both ends clip into `[0, n]`. -/
def sliceBound (n : Nat) (i : Int) : Nat :=
  if i < 0 then ((n : Int) + i).toNat else min i.toNat n

/-- Embeds Python list slicing `l[start:stop]` (step 1). -/
def pySlice {γ : Type} (l : List γ) (start stop : Int) : List γ :=
  (l.take (sliceBound l.length stop)).drop (sliceBound l.length start)

/-- One member of the torchvision transform pipeline built by
`PyTorchDataset.preprocess.get_transform`. -/
inductive TransformOp where
  | resize (size : PyVal)
  | toTensor
  | normalize (mean std : List Rat)
  deriving DecidableEq

/-- Embeds `get_transform` from `PyTorchDataset.preprocess`: resize only for an
integer size, then `ToTensor` and `Normalize` with the fixed ImageNet constants. -/
def get_transform (image_size : PyVal) : List TransformOp :=
  (if image_size.isInt then [TransformOp.resize image_size] else []) ++
    [TransformOp.toTensor,
      TransformOp.normalize [485/1000, 456/1000, 406/1000] [229/1000, 224/1000, 225/1000]]

/-- The data a torch `DataLoader` in this file is constructed over: the whole
dataset, or a `torch.utils.data.Subset` of it (stored lazily as dataset plus
index list, as torch does). -/
inductive LoaderSource (ι : Type) where
  | whole (items : List ι)
  | subset (items : List ι) (indices : List Int)
  deriving DecidableEq

/-- The arguments `_make_data_loaders` passes to the torch `DataLoader`
constructor. -/
structure DataLoader (ι : Type) where
  source : LoaderSource ι
  batch_size : PyVal
  shuffle : Bool
  num_workers : Nat
  generator : Option Int
  deriving DecidableEq

/-- The `_preprocessed` record `{'image_size': ..., 'batch_size': ...}`. -/
structure PreprocessRecord where
  image_size : PyVal
  batch_size : PyVal
  deriving DecidableEq

/-- The mutable attributes of a `PyTorchDataset` that the embedded methods read
and write.  `dataset` holds the item list of the underlying torch dataset;
`transform` mirrors `self._dataset.transform`; the `train_subset`,
`validation_subset` and `test_subset` attributes (only their definedness is
observed by `get_batch`) and `shuffle`/`num_workers` are initialized in
`BaseDataset`, which is not among the sources. -/
structure PyTorchDataset (ι : Type) where
  dataset : Option (List ι)
  transform : Option (List TransformOp)
  train_indices : Option (List Int)
  validation_indices : Option (List Int)
  test_indices : Option (List Int)
  train_subset : Option (LoaderSource ι)
  validation_subset : Option (LoaderSource ι)
  test_subset : Option (LoaderSource ι)
  validation_type : Option String
  preprocessed : Option PreprocessRecord
  data_loader : Option (DataLoader ι)
  train_loader : Option (DataLoader ι)
  validation_loader : Option (DataLoader ι)
  test_loader : Option (DataLoader ι)
  shuffle : Bool
  num_workers : Nat
  deriving DecidableEq

/-- Python truthiness of an optional list attribute: `None` and the empty list
are falsy. -/
def optListTruthy {γ : Type} (o : Option (List γ)) : Bool :=
  match o with
  | some l => !l.isEmpty
  | none => false

/-- Embeds `PyTorchDataset._make_data_loaders`: builds a `DataLoader` for the
whole dataset and for each subset whose index list is truthy, and resets the
others to `None`. -/
def make_data_loaders {ι : Type} (st : PyTorchDataset ι) (batch_size : PyVal)
    (generator : Option Int) : PyTorchDataset ι :=
  { st with
    data_loader :=
      if optListTruthy st.dataset then
        some ⟨.whole (st.dataset.getD []), batch_size, st.shuffle, st.num_workers, generator⟩
      else none,
    train_loader :=
      if optListTruthy st.train_indices then
        some ⟨.subset (st.dataset.getD []) (st.train_indices.getD []), batch_size,
          st.shuffle, st.num_workers, generator⟩
      else none,
    validation_loader :=
      if optListTruthy st.validation_indices then
        some ⟨.subset (st.dataset.getD []) (st.validation_indices.getD []), batch_size,
          st.shuffle, st.num_workers, generator⟩
      else none,
    test_loader :=
      if optListTruthy st.test_indices then
        some ⟨.subset (st.dataset.getD []) (st.test_indices.getD []), batch_size,
          st.shuffle, st.num_workers, generator⟩
      else none }

/-- The value of `next(iter(loader))`: the first batch the loader yields,
represented by the loader it came from.  Iterating over `None` raises
`TypeError`. -/
inductive BatchResult (ι : Type) where
  | firstBatch (l : DataLoader ι)
  deriving DecidableEq

/-- Embeds `next(iter(o))` on an optional loader attribute. -/
def nextIter {ι : Type} (o : Option (DataLoader ι)) : Except PyExc (BatchResult ι) :=
  match o with
  | some l => .ok (.firstBatch l)
  | none => .error .typeError

/-- Embeds `PyTorchDataset.get_batch`: picks the loader matching the requested
subset when that subset is defined, and raises `ValueError` otherwise. -/
def PyTorchDataset.get_batch {ι : Type} (st : PyTorchDataset ι) (subset : String) :
    Except PyExc (BatchResult ι) :=
  if subset = "all" ∧ st.dataset.isSome then nextIter st.data_loader
  else if subset = "train" ∧ st.train_subset.isSome then nextIter st.train_loader
  else if subset = "validation" ∧ st.validation_subset.isSome then
    nextIter st.validation_loader
  else if subset = "test" ∧ st.test_subset.isSome then nextIter st.test_loader
  else .error .valueError

/-- Embeds `torch.Generator().manual_seed(seed) if seed else None`: both `None`
and `0` are falsy, so only a nonzero seed produces a seeded generator. -/
def generatorFromSeed : Option Int → Option Int
  | some s => if s ≠ 0 then some s else none
  | none => none

/-- Embeds `PyTorchDataset.shuffle_split`.  `rp` models `torch.randperm` as a
function of the generator argument and the length; the Python floats are exact
rationals.  Raises `ValueError` on non-float percentages or a sum above 1, then
slices a fresh permutation into train/validation/test index lists and rebuilds
the data loaders when the dataset was already preprocessed. -/
def PyTorchDataset.shuffle_split {ι : Type} (st : PyTorchDataset ι)
    (rp : Option Int → Nat → List Int) (train_pct val_pct test_pct : PyVal)
    (seed : Option Int) : PyTorchDataset ι × Option PyExc :=
  if ¬(train_pct.isFloat ∧ val_pct.isFloat ∧ test_pct.isFloat) then (st, some .valueError)
  else if train_pct.asNum.getD 0 + val_pct.asNum.getD 0 + test_pct.asNum.getD 0 > 1 then
    (st, some .valueError)
  else
    match st.dataset with
    | none => (st, some .typeError)
    | some items =>
      let length : Nat := items.length
      let train_size := pyIntTrunc (train_pct.asNum.getD 0 * length)
      let val_size := pyIntTrunc (val_pct.asNum.getD 0 * length)
      let test_size := pyIntTrunc (test_pct.asNum.getD 0 * length)
      let generator := generatorFromSeed seed
      let dataset_indices := rp generator length
      let st1 := { st with
        train_indices := some (pySlice dataset_indices 0 train_size),
        validation_indices :=
          some (pySlice dataset_indices train_size (train_size + val_size)),
        test_indices :=
          if test_pct.truthy then
            some (pySlice dataset_indices (train_size + val_size)
              (train_size + val_size + test_size))
          else none,
        validation_type := some "shuffle_split" }
      match st1.preprocessed with
      | some p => (make_data_loaders st1 p.batch_size generator, none)
      | none => (st1, none)

/-- Embeds `PyTorchDataset.preprocess`: validates the dataset, the one-shot
guard, the batch size and the image size in that order (raising leaves the
object untouched), then sets the dataset transform, builds the data loaders and
records the image size and batch size used. -/
def PyTorchDataset.preprocess {ι : Type} (st : PyTorchDataset ι)
    (image_size batch_size : PyVal) : PyTorchDataset ι × Option PyExc :=
  if !(optListTruthy st.dataset) then (st, some .valueError)
  else if st.preprocessed.isSome then (st, some .valueError)
  else if ¬(batch_size.isInt = true ∧ 1 ≤ batch_size.asNum.getD 0) then
    (st, some .valueError)
  else if ¬(image_size.eqStr "variable" = true ∨
      (image_size.isInt = true ∧ 1 ≤ image_size.asNum.getD 0)) then
    (st, some .valueError)
  else
    let st1 := { st with transform := some (get_transform image_size) }
    let st2 := make_data_loaders st1 batch_size none
    ({ st2 with preprocessed := some ⟨image_size, batch_size⟩ }, none)


/-- Unfolding lemma: `shuffle_split` with a non-float percentage raises
`ValueError` and leaves the object unchanged. -/
theorem shuffle_split_not_float {ι : Type} (st : PyTorchDataset ι)
    (rp : Option Int → Nat → List Int) (t v z : PyVal) (seed : Option Int)
    (hf : ¬(t.isFloat = true ∧ v.isFloat = true ∧ z.isFloat = true)) :
    st.shuffle_split rp t v z seed = (st, some PyExc.valueError) := by
  unfold PyTorchDataset.shuffle_split
  rw [if_pos hf]

/-- Unfolding lemma: `shuffle_split` with float percentages summing above 1
raises `ValueError` and leaves the object unchanged. -/
theorem shuffle_split_sum_too_big {ι : Type} (st : PyTorchDataset ι)
    (rp : Option Int → Nat → List Int) (t v z : PyVal) (seed : Option Int)
    (hf : t.isFloat = true ∧ v.isFloat = true ∧ z.isFloat = true)
    (hsum : t.asNum.getD 0 + v.asNum.getD 0 + z.asNum.getD 0 > 1) :
    st.shuffle_split rp t v z seed = (st, some PyExc.valueError) := by
  unfold PyTorchDataset.shuffle_split
  rw [if_neg (not_not_intro hf), if_pos hsum]

/-- Unfolding lemma: the successful path of `shuffle_split` on a defined
dataset, written as one equation. -/
theorem shuffle_split_success_eq {ι : Type} (st : PyTorchDataset ι) (items : List ι)
    (rp : Option Int → Nat → List Int) (t v z : PyVal) (seed : Option Int)
    (hds : st.dataset = some items)
    (hf : t.isFloat = true ∧ v.isFloat = true ∧ z.isFloat = true)
    (hsum : ¬(t.asNum.getD 0 + v.asNum.getD 0 + z.asNum.getD 0 > 1)) :
    st.shuffle_split rp t v z seed =
      (let n := items.length
       let ts := pyIntTrunc (t.asNum.getD 0 * n)
       let vs := pyIntTrunc (v.asNum.getD 0 * n)
       let zs := pyIntTrunc (z.asNum.getD 0 * n)
       let g := generatorFromSeed seed
       let di := rp g n
       let st1 := { st with
         train_indices := some (pySlice di 0 ts),
         validation_indices := some (pySlice di ts (ts + vs)),
         test_indices :=
           if z.truthy then some (pySlice di (ts + vs) (ts + vs + zs)) else none,
         validation_type := some "shuffle_split" }
       match st.preprocessed with
       | some p => (make_data_loaders st1 p.batch_size g, none)
       | none => (st1, none)) := by
  unfold PyTorchDataset.shuffle_split
  rw [if_neg (not_not_intro hf), if_neg hsum, hds]

/-- C5: on a `PyTorchDataset` with a defined dataset, `shuffle_split` raises
`ValueError` iff one of the percentage arguments is not a float or their sum
exceeds 1; when it does not raise, it sets the validation type to
'shuffle_split' and assigns train and validation index lists, and a test index
list exactly when `test_pct` is nonzero. -/
theorem PyTorchDataset_shuffle_split_spec {ι : Type} (st : PyTorchDataset ι)
    (items : List ι) (rp : Option Int → Nat → List Int) (t v z : PyVal)
    (seed : Option Int) (hds : st.dataset = some items) :
    ((st.shuffle_split rp t v z seed).2 = some PyExc.valueError ↔
      (t.isFloat = false ∨ v.isFloat = false ∨ z.isFloat = false ∨
        t.asNum.getD 0 + v.asNum.getD 0 + z.asNum.getD 0 > 1)) ∧
    ((st.shuffle_split rp t v z seed).2 = none →
      ((st.shuffle_split rp t v z seed).1.validation_type = some "shuffle_split" ∧
        (st.shuffle_split rp t v z seed).1.train_indices.isSome = true ∧
        (st.shuffle_split rp t v z seed).1.validation_indices.isSome = true ∧
        ((st.shuffle_split rp t v z seed).1.test_indices.isSome = true ↔
          z.truthy = true))) := by
  by_cases hf : (t.isFloat = true ∧ v.isFloat = true ∧ z.isFloat = true)
  · by_cases hsum : t.asNum.getD 0 + v.asNum.getD 0 + z.asNum.getD 0 > 1
    · rw [shuffle_split_sum_too_big st rp t v z seed hf hsum]
      exact ⟨by simp [hsum], fun h => by simp at h⟩
    · rw [shuffle_split_success_eq st items rp t v z seed hds hf hsum]
      rcases hp : st.preprocessed with _ | p <;>
        refine ⟨by simp [hf.1, hf.2.1, hf.2.2, hsum], fun _ => ?_⟩ <;>
        refine ⟨by simp [make_data_loaders], by simp [make_data_loaders],
          by simp [make_data_loaders], ?_⟩ <;>
        by_cases hz : z.truthy <;>
          simp [make_data_loaders, hz]
  · rw [shuffle_split_not_float st rp t v z seed hf]
    simp only [not_and_or, Bool.not_eq_true] at hf
    exact ⟨by simp; tauto, fun h => by simp at h⟩

theorem pyIntTrunc_of_nonneg (q : Rat) (h : 0 ≤ q) : pyIntTrunc q = ⌊q⌋ := by
  unfold pyIntTrunc
  rw [if_neg (not_lt.mpr h)]

theorem floor_add_floor_le (a b : Rat) : ⌊a⌋ + ⌊b⌋ ≤ ⌊a + b⌋ := by
  apply Int.le_floor.mpr
  push_cast
  exact add_le_add (Int.floor_le a) (Int.floor_le b)

theorem sliceBound_natCast (n b : Nat) : sliceBound n (b : Int) = min b n := by
  unfold sliceBound
  rw [if_neg (by omega)]
  simp

theorem pySlice_zero {γ : Type} (l : List γ) (b : Nat) :
    pySlice l 0 (b : Int) = l.take b := by
  unfold pySlice
  have e0 : sliceBound l.length 0 = 0 := by unfold sliceBound; simp
  rw [e0, sliceBound_natCast, List.drop_zero]
  rcases le_total b l.length with h | h
  · rw [min_eq_left h]
  · rw [min_eq_right h, List.take_length, List.take_of_length_le h]

theorem pySlice_consecutive {γ : Type} (l : List γ) (a b : Nat)
    (hab : a + b ≤ l.length) :
    pySlice l (a : Int) ((a : Int) + (b : Int)) = (l.drop a).take b := by
  unfold pySlice
  have hcast : (a : Int) + (b : Int) = ((a + b : Nat) : Int) := by push_cast; ring
  rw [hcast, sliceBound_natCast, sliceBound_natCast,
    min_eq_left hab, min_eq_left (le_trans (Nat.le_add_right a b) hab), List.drop_take]
  congr 1
  omega

theorem shuffle_split_float_fields {ι : Type} (st : PyTorchDataset ι) (items : List ι)
    (rp : Option Int → Nat → List Int) (t v z : Rat) (seed : Option Int)
    (hds : st.dataset = some items) (hsum : ¬(t + v + z > 1)) :
    (st.shuffle_split rp (.float t) (.float v) (.float z) seed).2 = none ∧
    (st.shuffle_split rp (.float t) (.float v) (.float z) seed).1.train_indices =
      some (pySlice (rp (generatorFromSeed seed) items.length) 0
        (pyIntTrunc (t * (items.length : Rat)))) ∧
    (st.shuffle_split rp (.float t) (.float v) (.float z) seed).1.validation_indices =
      some (pySlice (rp (generatorFromSeed seed) items.length)
        (pyIntTrunc (t * (items.length : Rat)))
        (pyIntTrunc (t * (items.length : Rat)) + pyIntTrunc (v * (items.length : Rat)))) ∧
    (st.shuffle_split rp (.float t) (.float v) (.float z) seed).1.test_indices =
      (if z ≠ 0 then
        some (pySlice (rp (generatorFromSeed seed) items.length)
          (pyIntTrunc (t * (items.length : Rat)) + pyIntTrunc (v * (items.length : Rat)))
          (pyIntTrunc (t * (items.length : Rat)) + pyIntTrunc (v * (items.length : Rat)) +
            pyIntTrunc (z * (items.length : Rat))))
      else none) := by
  rw [shuffle_split_success_eq st items rp (.float t) (.float v) (.float z) seed hds
    ⟨rfl, rfl, rfl⟩ (by simpa [PyVal.asNum] using hsum)]
  rcases hpre : st.preprocessed with _ | pr <;>
    by_cases hz : z = 0 <;>
      simp [hpre, make_data_loaders, PyVal.asNum, PyVal.truthy, hz]

/-- C6 (amended): after a successful `shuffle_split` whose percentages are
nonnegative floats, the train, validation and test index lists are
pairwise-disjoint consecutive slices of the permutation returned by
`torch.randperm`, with exactly `int(train_pct * n)`, `int(val_pct * n)` and
`int(test_pct * n)` entries respectively, and the test index list is `None`
exactly when `test_pct` is zero. -/
theorem shuffle_split_partition {ι : Type} (st : PyTorchDataset ι) (items : List ι)
    (rp : Option Int → Nat → List Int) (t v z : Rat) (seed : Option Int)
    (hds : st.dataset = some items)
    (hperm : (rp (generatorFromSeed seed) items.length).Perm
      ((List.range items.length).map Int.ofNat))
    (ht : 0 ≤ t) (hv : 0 ≤ v) (hz : 0 ≤ z) (hsum : t + v + z ≤ 1) :
    ∀ p : List Int, ∀ ts vs zs : Nat,
      p = rp (generatorFromSeed seed) items.length →
      (ts : Int) = pyIntTrunc (t * (items.length : Rat)) →
      (vs : Int) = pyIntTrunc (v * (items.length : Rat)) →
      (zs : Int) = pyIntTrunc (z * (items.length : Rat)) →
      ((st.shuffle_split rp (.float t) (.float v) (.float z) seed).2 = none ∧
        (st.shuffle_split rp (.float t) (.float v) (.float z) seed).1.train_indices =
          some (p.take ts) ∧
        (st.shuffle_split rp (.float t) (.float v) (.float z) seed).1.validation_indices =
          some ((p.drop ts).take vs) ∧
        (z ≠ 0 →
          (st.shuffle_split rp (.float t) (.float v) (.float z) seed).1.test_indices =
            some ((p.drop (ts + vs)).take zs)) ∧
        (z = 0 →
          (st.shuffle_split rp (.float t) (.float v) (.float z) seed).1.test_indices =
            none) ∧
        (p.take ts).length = ts ∧
        ((p.drop ts).take vs).length = vs ∧
        ((p.drop (ts + vs)).take zs).length = zs ∧
        List.Disjoint (p.take ts) ((p.drop ts).take vs) ∧
        List.Disjoint (p.take ts) ((p.drop (ts + vs)).take zs) ∧
        List.Disjoint ((p.drop ts).take vs) ((p.drop (ts + vs)).take zs)) := by
  intro p ts vs zs hp hts hvs hzs
  have hlen : p.length = items.length := by
    rw [hp, hperm.length_eq, List.length_map, List.length_range]
  have hn0 : (0 : Rat) ≤ (items.length : Rat) := Nat.cast_nonneg _
  have et : pyIntTrunc (t * (items.length : Rat)) = ⌊t * (items.length : Rat)⌋ :=
    pyIntTrunc_of_nonneg _ (mul_nonneg ht hn0)
  have ev : pyIntTrunc (v * (items.length : Rat)) = ⌊v * (items.length : Rat)⌋ :=
    pyIntTrunc_of_nonneg _ (mul_nonneg hv hn0)
  have ez : pyIntTrunc (z * (items.length : Rat)) = ⌊z * (items.length : Rat)⌋ :=
    pyIntTrunc_of_nonneg _ (mul_nonneg hz hn0)
  have hsum_n : (ts : Int) + vs + zs ≤ (items.length : Int) := by
    rw [hts, hvs, hzs, et, ev, ez]
    have step1 : ⌊t * (items.length : Rat)⌋ + ⌊v * (items.length : Rat)⌋ +
        ⌊z * (items.length : Rat)⌋ ≤
        ⌊t * (items.length : Rat) + v * (items.length : Rat) + z * (items.length : Rat)⌋ :=
      le_trans (add_le_add_right (floor_add_floor_le _ _) _) (floor_add_floor_le _ _)
    have hval : t * (items.length : Rat) + v * (items.length : Rat) +
        z * (items.length : Rat) ≤ (items.length : Rat) := by
      have hmul : (t + v + z) * (items.length : Rat) ≤ 1 * (items.length : Rat) :=
        mul_le_mul_of_nonneg_right hsum hn0
      nlinarith [hmul]
    calc ⌊t * (items.length : Rat)⌋ + ⌊v * (items.length : Rat)⌋ +
        ⌊z * (items.length : Rat)⌋ ≤
        ⌊t * (items.length : Rat) + v * (items.length : Rat) + z * (items.length : Rat)⌋ :=
          step1
      _ ≤ ⌊(items.length : Rat)⌋ := Int.floor_le_floor hval
      _ = (items.length : Int) := Int.floor_natCast _
  have hts_le : ts + vs ≤ items.length := by omega
  have hall_le : ts + vs + zs ≤ items.length := by omega
  obtain ⟨h2, htr, hval2, htest⟩ :=
    shuffle_split_float_fields st items rp t v z seed hds (by push_neg; exact hsum)
  rw [← hp] at htr hval2 htest
  rw [← hts] at htr hval2 htest
  rw [← hvs] at hval2 htest
  rw [← hzs] at htest
  have etr : pySlice p 0 (ts : Int) = p.take ts := pySlice_zero p ts
  have eval : pySlice p (ts : Int) ((ts : Int) + (vs : Int)) = (p.drop ts).take vs :=
    pySlice_consecutive p ts vs (by omega)
  have ecast : (ts : Int) + (vs : Int) = ((ts + vs : Nat) : Int) := by push_cast; ring
  have etest : pySlice p ((ts : Int) + (vs : Int)) ((ts : Int) + (vs : Int) + (zs : Int)) =
      (p.drop (ts + vs)).take zs := by
    rw [ecast]
    exact pySlice_consecutive p (ts + vs) zs (by omega)
  have hnodup : p.Nodup := by
    rw [hp]
    exact hperm.nodup_iff.mpr
      ((List.nodup_range items.length).map fun a b hab => Int.ofNat_inj.mp hab)
  have d_tv : List.Disjoint (p.take ts) ((p.drop ts).take vs) :=
    List.disjoint_of_subset_right (List.take_subset _ _)
      (List.disjoint_take_drop hnodup le_rfl)
  have d_tz : List.Disjoint (p.take ts) ((p.drop (ts + vs)).take zs) :=
    List.disjoint_of_subset_right (List.take_subset _ _)
      (List.disjoint_take_drop hnodup (Nat.le_add_right ts vs))
  have d_vz : List.Disjoint ((p.drop ts).take vs) ((p.drop (ts + vs)).take zs) := by
    have hdd : p.drop (ts + vs) = (p.drop ts).drop vs := by
      rw [List.drop_drop]
      try congr 1
      try omega
    rw [hdd]
    exact List.disjoint_of_subset_right (List.take_subset _ _)
      (List.disjoint_take_drop (hnodup.sublist (List.drop_sublist _ _)) le_rfl)
  refine ⟨h2, by rw [htr, etr], by rw [hval2, eval], fun hzne => ?_, fun hzeq => ?_,
    ?_, ?_, ?_, d_tv, d_tz, d_vz⟩
  · rw [htest, if_pos hzne, etest]
  · rw [htest, if_neg (not_not_intro hzeq)]
  · rw [List.length_take]
    omega
  · rw [List.length_take, List.length_drop]
    omega
  · rw [List.length_take, List.length_drop]
    omega

/-- A concrete ten-element dataset state used to evaluate the embedded methods. -/
def sampleState : PyTorchDataset Nat :=
  { dataset := some (List.range 10), transform := none, train_indices := none,
    validation_indices := none, test_indices := none, train_subset := none,
    validation_subset := none, test_subset := none, validation_type := none,
    preprocessed := none, data_loader := none, train_loader := none,
    validation_loader := none, test_loader := none, shuffle := false, num_workers := 0 }

/-- A concrete stand-in for `torch.randperm`: the identity permutation of
`{0, ..., n-1}`, regardless of the generator. -/
def idPerm : Option Int → Nat → List Int := fun _ n => (List.range n).map Int.ofNat

/-- C6: the claim, as stated, is false on the code.  `shuffle_split` accepts
negative percentages (they are floats and the sum check still passes), and
Python's negative slice bounds then produce index lists whose sizes are not
`int(pct * n)`: with `train_pct = -0.5`, `val_pct = 0.5`, `test_pct = 0.0` on a
ten-element dataset the call succeeds but the validation index list is empty
although `int(0.5 * 10) = 5`. -/
theorem shuffle_split_partition_counterexample :
    (sampleState.shuffle_split idPerm (PyVal.float (-(1/2))) (PyVal.float (1/2))
        (PyVal.float 0) none).2 = none ∧
    (sampleState.shuffle_split idPerm (PyVal.float (-(1/2))) (PyVal.float (1/2))
        (PyVal.float 0) none).1.validation_indices = some [] ∧
    pyIntTrunc ((1/2) * ((10 : Nat) : Rat)) = 5 := by
  have h := shuffle_split_float_fields sampleState (List.range 10) idPerm
    (-(1/2)) (1/2) 0 none rfl (by norm_num)
  have e1 : pyIntTrunc (-(1/2) * (((List.range 10).length : Nat) : Rat)) = -5 := by
    norm_num [pyIntTrunc, List.length_range]
  have e2 : pyIntTrunc ((1/2) * (((List.range 10).length : Nat) : Rat)) = 5 := by
    norm_num [pyIntTrunc, List.length_range]
  refine ⟨h.1, ?_, by norm_num [pyIntTrunc]⟩
  rw [h.2.2.1, e1, e2]
  decide

/-- C6 witness: the amended partition theorem evaluated on a ten-element dataset
with percentages 0.5/0.25/0.25 and the identity permutation: the train index
list is the first five indices. -/
theorem shuffle_split_partition_witness :
    (sampleState.shuffle_split idPerm (PyVal.float (1/2)) (PyVal.float (1/4))
        (PyVal.float (1/4)) (some 3)).1.train_indices = some [0, 1, 2, 3, 4] := by
  have h := shuffle_split_partition sampleState (List.range 10) idPerm
    (1/2) (1/4) (1/4) (some 3) rfl (List.Perm.refl _)
    (by norm_num) (by norm_num) (by norm_num) (by norm_num)
    (idPerm (generatorFromSeed (some 3)) (List.range 10).length) 5 2 2
    rfl (by norm_num [pyIntTrunc, List.length_range])
    (by norm_num [pyIntTrunc, List.length_range])
    (by norm_num [pyIntTrunc, List.length_range])
  rw [h.2.1]
  decide

/-- C5 witness: a valid 0.5/0.25/0.25 split on a ten-element dataset succeeds
and records the 'shuffle_split' validation type. -/
theorem PyTorchDataset_shuffle_split_spec_witness :
    (sampleState.shuffle_split idPerm (PyVal.float (1/2)) (PyVal.float (1/4))
        (PyVal.float (1/4)) (some 10)).1.validation_type = some "shuffle_split" := by
  have h := PyTorchDataset_shuffle_split_spec sampleState (List.range 10) idPerm
    (PyVal.float (1/2)) (PyVal.float (1/4)) (PyVal.float (1/4)) (some 10) rfl
  refine (h.2 ?_).1
  exact (shuffle_split_float_fields sampleState (List.range 10) idPerm (1/2) (1/4) (1/4)
    (some 10) rfl (by norm_num)).1

/-- A second concrete dataset state, over a different item type, also of
length ten. -/
def sampleState2 : PyTorchDataset Bool :=
  { dataset := some (List.replicate 10 true), transform := none, train_indices := none,
    validation_indices := none, test_indices := none, train_subset := none,
    validation_subset := none, test_subset := none, validation_type := none,
    preprocessed := none, data_loader := none, train_loader := none,
    validation_loader := none, test_loader := none, shuffle := false, num_workers := 0 }

/-- C7: with the same nonzero seed, identical float percentages and datasets of
equal length, two `shuffle_split` calls produce identical train, validation and
test index lists (torch.randperm is a fixed function of the generator and the
length); and a seed of 0 is falsy in `torch.Generator().manual_seed(seed) if seed
else None`, so `seed = 0` behaves exactly like the unseeded call. -/
theorem shuffle_split_seed_spec {ι κ : Type} (st₁ : PyTorchDataset ι)
    (st₂ : PyTorchDataset κ) (items₁ : List ι) (items₂ : List κ)
    (rp : Option Int → Nat → List Int) (t v z : Rat) (s : Int)
    (hds₁ : st₁.dataset = some items₁) (hds₂ : st₂.dataset = some items₂)
    (hlen : items₁.length = items₂.length) (hs : s ≠ 0)
    (hsum : ¬(t + v + z > 1)) :
    ((st₁.shuffle_split rp (.float t) (.float v) (.float z) (some s)).1.train_indices =
        (st₂.shuffle_split rp (.float t) (.float v) (.float z) (some s)).1.train_indices ∧
      (st₁.shuffle_split rp (.float t) (.float v) (.float z) (some s)).1.validation_indices =
        (st₂.shuffle_split rp (.float t) (.float v) (.float z) (some s)).1.validation_indices ∧
      (st₁.shuffle_split rp (.float t) (.float v) (.float z) (some s)).1.test_indices =
        (st₂.shuffle_split rp (.float t) (.float v) (.float z) (some s)).1.test_indices) ∧
    (∀ (rp2 : Option Int → Nat → List Int) (t2 v2 z2 : PyVal),
      st₁.shuffle_split rp2 t2 v2 z2 (some 0) = st₁.shuffle_split rp2 t2 v2 z2 none) := by
  have f₁ := shuffle_split_float_fields st₁ items₁ rp t v z (some s) hds₁ hsum
  have f₂ := shuffle_split_float_fields st₂ items₂ rp t v z (some s) hds₂ hsum
  constructor
  · refine ⟨?_, ?_, ?_⟩
    · rw [f₁.2.1, f₂.2.1, hlen]
    · rw [f₁.2.2.1, f₂.2.2.1, hlen]
    · rw [f₁.2.2.2, f₂.2.2.2, hlen]
  · intro rp2 t2 v2 z2
    have hg : generatorFromSeed (some 0) = generatorFromSeed none := rfl
    unfold PyTorchDataset.shuffle_split
    simp only [hg]

/-- C7 witness: the seed-determinism theorem applied to two concrete length-ten
datasets of different item types with seed 7. -/
theorem shuffle_split_seed_spec_witness :
    (sampleState.shuffle_split idPerm (PyVal.float (1/2)) (PyVal.float (1/4))
        (PyVal.float (1/4)) (some 7)).1.train_indices =
      (sampleState2.shuffle_split idPerm (PyVal.float (1/2)) (PyVal.float (1/4))
        (PyVal.float (1/4)) (some 7)).1.train_indices := by
  exact (shuffle_split_seed_spec sampleState sampleState2 (List.range 10)
    (List.replicate 10 true) idPerm (1/2) (1/4) (1/4) 7 rfl rfl (by decide)
    (by decide) (by norm_num)).1.1

theorem nextIter_eq_valueError_iff {ι : Type} (o : Option (DataLoader ι)) :
    (nextIter o = Except.error PyExc.valueError) ↔ False := by
  cases o <;> simp [nextIter]

/-- C8: `get_batch` returns the first batch from the loader of the whole dataset
when `subset` is 'all' and the dataset is defined, from the train, validation or
test loader when `subset` names a defined subset, and raises `ValueError` in
every other case. -/
theorem PyTorchDataset_get_batch_spec {ι : Type} (st : PyTorchDataset ι)
    (subset : String) :
    (subset = "all" → st.dataset.isSome = true →
      st.get_batch subset = nextIter st.data_loader) ∧
    (subset = "train" → st.train_subset.isSome = true →
      st.get_batch subset = nextIter st.train_loader) ∧
    (subset = "validation" → st.validation_subset.isSome = true →
      st.get_batch subset = nextIter st.validation_loader) ∧
    (subset = "test" → st.test_subset.isSome = true →
      st.get_batch subset = nextIter st.test_loader) ∧
    (st.get_batch subset = Except.error PyExc.valueError ↔
      ¬((subset = "all" ∧ st.dataset.isSome = true) ∨
        (subset = "train" ∧ st.train_subset.isSome = true) ∨
        (subset = "validation" ∧ st.validation_subset.isSome = true) ∨
        (subset = "test" ∧ st.test_subset.isSome = true))) := by
  unfold PyTorchDataset.get_batch
  split_ifs with h1 h2 h3 h4 <;>
    refine ⟨?_, ?_, ?_, ?_, ?_⟩ <;>
      simp_all [nextIter_eq_valueError_iff] <;>
        tauto

/-- C8 witness: on a state whose train subset and loader are defined, requesting
the 'train' batch returns the first batch of the train loader. -/
theorem PyTorchDataset_get_batch_spec_witness :
    PyTorchDataset.get_batch
      { sampleState with
        train_subset := some (.subset (List.range 10) [0, 1]),
        train_loader := some ⟨.subset (List.range 10) [0, 1], PyVal.int 32, false, 0, none⟩ }
      "train" =
      Except.ok (.firstBatch
        ⟨.subset (List.range 10) [0, 1], PyVal.int 32, false, 0, none⟩) := by
  have h := (PyTorchDataset_get_batch_spec
    { sampleState with
      train_subset := some (.subset (List.range 10) [0, 1]),
      train_loader := some ⟨.subset (List.range 10) [0, 1], PyVal.int 32, false, 0, none⟩ }
    "train").2.1 rfl rfl
  rw [h]
  rfl

theorem preprocess_ds_fail {ι : Type} (st : PyTorchDataset ι) (im bs : PyVal)
    (h : (!optListTruthy st.dataset) = true) :
    st.preprocess im bs = (st, some PyExc.valueError) := by
  unfold PyTorchDataset.preprocess
  rw [if_pos h]

theorem preprocess_pre_fail {ι : Type} (st : PyTorchDataset ι) (im bs : PyVal)
    (h1 : ¬((!optListTruthy st.dataset) = true)) (h2 : st.preprocessed.isSome = true) :
    st.preprocess im bs = (st, some PyExc.valueError) := by
  unfold PyTorchDataset.preprocess
  rw [if_neg h1, if_pos h2]

theorem preprocess_bs_fail {ι : Type} (st : PyTorchDataset ι) (im bs : PyVal)
    (h1 : ¬((!optListTruthy st.dataset) = true)) (h2 : ¬(st.preprocessed.isSome = true))
    (h3 : ¬(bs.isInt = true ∧ 1 ≤ bs.asNum.getD 0)) :
    st.preprocess im bs = (st, some PyExc.valueError) := by
  unfold PyTorchDataset.preprocess
  rw [if_neg h1, if_neg h2, if_pos h3]

theorem preprocess_im_fail {ι : Type} (st : PyTorchDataset ι) (im bs : PyVal)
    (h1 : ¬((!optListTruthy st.dataset) = true)) (h2 : ¬(st.preprocessed.isSome = true))
    (h3 : ¬¬(bs.isInt = true ∧ 1 ≤ bs.asNum.getD 0))
    (h4 : ¬(im.eqStr "variable" = true ∨ (im.isInt = true ∧ 1 ≤ im.asNum.getD 0))) :
    st.preprocess im bs = (st, some PyExc.valueError) := by
  unfold PyTorchDataset.preprocess
  rw [if_neg h1, if_neg h2, if_neg h3, if_pos h4]

theorem preprocess_success_eq {ι : Type} (st : PyTorchDataset ι) (im bs : PyVal)
    (h1 : ¬((!optListTruthy st.dataset) = true)) (h2 : ¬(st.preprocessed.isSome = true))
    (h3 : ¬¬(bs.isInt = true ∧ 1 ≤ bs.asNum.getD 0))
    (h4 : ¬¬(im.eqStr "variable" = true ∨ (im.isInt = true ∧ 1 ≤ im.asNum.getD 0))) :
    st.preprocess im bs =
      ({ make_data_loaders { st with transform := some (get_transform im) } bs none with
          preprocessed := some ⟨im, bs⟩ }, none) := by
  unfold PyTorchDataset.preprocess
  rw [if_neg h1, if_neg h2, if_neg h3, if_neg h4]

/-- C9: `preprocess` raises `ValueError` when the dataset is undefined, when the
dataset was already preprocessed, when the batch size is not a positive int, or
when the image size is neither 'variable' nor a positive int; every raising call
leaves the object unchanged; a successful call records the image size and batch
size used, and any later call on the result raises, so preprocessing succeeds at
most once. -/
theorem PyTorchDataset_preprocess_spec {ι : Type} (st : PyTorchDataset ι)
    (image_size batch_size : PyVal) :
    (st.dataset = none →
      (st.preprocess image_size batch_size).2 = some PyExc.valueError) ∧
    (st.preprocessed.isSome = true →
      (st.preprocess image_size batch_size).2 = some PyExc.valueError) ∧
    (¬(batch_size.isInt = true ∧ 1 ≤ batch_size.asNum.getD 0) →
      (st.preprocess image_size batch_size).2 = some PyExc.valueError) ∧
    (¬(image_size.eqStr "variable" = true ∨
        (image_size.isInt = true ∧ 1 ≤ image_size.asNum.getD 0)) →
      (st.preprocess image_size batch_size).2 = some PyExc.valueError) ∧
    ((st.preprocess image_size batch_size).2.isSome = true →
      (st.preprocess image_size batch_size).1 = st) ∧
    ((st.preprocess image_size batch_size).2 = none →
      (st.preprocess image_size batch_size).1.preprocessed =
        some ⟨image_size, batch_size⟩) ∧
    ((st.preprocess image_size batch_size).2 = none → ∀ im2 bs2 : PyVal,
      ((st.preprocess image_size batch_size).1.preprocess im2 bs2).2 =
        some PyExc.valueError) := by
  by_cases d1 : (!optListTruthy st.dataset) = true
  · rw [preprocess_ds_fail st image_size batch_size d1]
    exact ⟨fun _ => rfl, fun _ => rfl, fun _ => rfl, fun _ => rfl, fun _ => rfl,
      fun hc => by simp at hc, fun hc => by simp at hc⟩
  · by_cases d2 : st.preprocessed.isSome = true
    · rw [preprocess_pre_fail st image_size batch_size d1 d2]
      exact ⟨fun _ => rfl, fun _ => rfl, fun _ => rfl, fun _ => rfl, fun _ => rfl,
        fun hc => by simp at hc, fun hc => by simp at hc⟩
    · by_cases d3 : (batch_size.isInt = true ∧ 1 ≤ batch_size.asNum.getD 0)
      · by_cases d4 : (image_size.eqStr "variable" = true ∨
            (image_size.isInt = true ∧ 1 ≤ image_size.asNum.getD 0))
        · rw [preprocess_success_eq st image_size batch_size d1 d2
            (not_not_intro d3) (not_not_intro d4)]
          refine ⟨?_, ?_, ?_, ?_, ?_, ?_, ?_⟩
          · intro hds
            rw [hds] at d1
            simp [optListTruthy] at d1
          · intro hpre
            exact absurd hpre d2
          · intro hbs
            exact absurd d3 hbs
          · intro him
            exact absurd d4 him
          · intro hc
            simp at hc
          · intro _
            rfl
          · intro _ im2 bs2
            have hds2 : (!optListTruthy
                ({ make_data_loaders { st with transform := some (get_transform image_size) }
                    batch_size none with
                  preprocessed := some ⟨image_size, batch_size⟩ } :
                  PyTorchDataset ι).dataset) = true → False := by
              intro hcon
              apply d1
              simpa [make_data_loaders] using hcon
            by_cases d5 : (!optListTruthy
                ({ make_data_loaders { st with transform := some (get_transform image_size) }
                    batch_size none with
                  preprocessed := some ⟨image_size, batch_size⟩ } :
                  PyTorchDataset ι).dataset) = true
            · exact absurd d5 (fun h => hds2 h)
            · rw [preprocess_pre_fail _ im2 bs2 d5 rfl]
        · rw [preprocess_im_fail st image_size batch_size d1 d2 (not_not_intro d3) d4]
          exact ⟨fun _ => rfl, fun _ => rfl, fun _ => rfl, fun _ => rfl, fun _ => rfl,
            fun hc => by simp at hc, fun hc => by simp at hc⟩
      · rw [preprocess_bs_fail st image_size batch_size d1 d2 d3]
        exact ⟨fun _ => rfl, fun _ => rfl, fun _ => rfl, fun _ => rfl, fun _ => rfl,
          fun hc => by simp at hc, fun hc => by simp at hc⟩

/-- C9 witness: preprocessing the ten-element dataset with image size 224 and
batch size 32 succeeds and records both values. -/
theorem PyTorchDataset_preprocess_spec_witness :
    (sampleState.preprocess (PyVal.int 224) (PyVal.int 32)).1.preprocessed =
      some ⟨PyVal.int 224, PyVal.int 32⟩ := by
  have h := PyTorchDataset_preprocess_spec sampleState (PyVal.int 224) (PyVal.int 32)
  refine h.2.2.2.2.2.1 ?_
  rw [preprocess_success_eq sampleState (PyVal.int 224) (PyVal.int 32) (by decide)
    (by decide) (by norm_num [PyVal.asNum, PyVal.isInt])
    (by norm_num [PyVal.asNum, PyVal.isInt, PyVal.eqStr])]

/-- A PyTorch model as produced by the model factory; only its name matters for
the graph-optimization claim. -/
structure PyTorchModel where
  model_name : String
  deriving DecidableEq

/-- Modelled from the spec: the implementation of `optimize_graph` for PyTorch
models is not among the sources (only the tests that call it are).  The spec
says graph optimization is delegated entirely to the external framework, and
both tests require `optimize_graph` on a PyTorch model to raise
`NotImplementedError`. -/
def PyTorchModel.optimize_graph (_m : PyTorchModel) (_saved_model_dir : String)
    (_optimized_model_dir : Option String) : Except PyExc Unit :=
  .error .notImplementedError

/-- C10: for every PyTorch model from the model factory, `optimize_graph`
raises `NotImplementedError` regardless of the directories passed. -/
theorem PyTorchModel_optimize_graph_spec (m : PyTorchModel) (d : String)
    (o : Option String) :
    m.optimize_graph d o = Except.error PyExc.notImplementedError := rfl
